import Mathlib

/-!
# Verification of the resume-ranker client (src/index.tsx)

Shallow embedding of the single-page resume-ranking client. JavaScript
strings are modelled as `List Char` where the character-level operations
(`trim`, `startsWith`, `substring`) matter, and as Lean `String` for the
opaque state fields. Asynchronous handlers are modelled as functions
returning the sequence of observable states (one entry per suspension
point where React re-renders, plus the final state). The PDF library and
the generative-AI service are external collaborators; their outcomes are
inputs to the embedded handlers.
-/

namespace ResumeRanker

/-- ECMAScript whitespace for `String.prototype.trim`:
WhiteSpace ∪ LineTerminator (space, tab, LF, CR, VT, FF, NBSP, BOM,
Unicode space separators, LS, PS). -/
def isWsp (c : Char) : Bool :=
  c == ' ' || c == '\t' || c == '\n' || c == '\r' || c == '\x0b' ||
  c == '\x0c' || c == '\xa0' || c == '\u1680' ||
  ('\u2000' <= c && c <= '\u200a') || c == '\u2028' || c == '\u2029' ||
  c == '\u202f' || c == '\u205f' || c == '\u3000' || c == '\ufeff'

/-- Leading-whitespace removal (half of JS `trim`). -/
def trimLeft (s : List Char) : List Char := s.dropWhile isWsp

/-- Trailing-whitespace removal (half of JS `trim`). -/
def trimRight (s : List Char) : List Char :=
  (s.reverse.dropWhile isWsp).reverse

/-- JS `String.prototype.trim`. -/
def jsTrim (s : List Char) : List Char := trimLeft (trimRight s)

/-- JS `String.prototype.substring(i, j)`: clamps the indices to the
string bounds and swaps them when `i > j` (the indices here are already
natural numbers, as at both call sites in the source). -/
def jsSubstring (s : List Char) (i j : Nat) : List Char :=
  (s.take (max i j)).drop (min i j)

/-- The tagged opening fence marker tested by `startsWith` in the source. -/
def fenceJson : List Char := "```json".data

/-- The untagged fence marker. -/
def fenceBare : List Char := "```".data

/-- The fence-stripping step of `handleRankResume`
(src/index.tsx lines 165-170):
trim, then if the text starts with a tagged fence drop the first 7 and
last 3 characters and re-trim; else if it starts with an untagged fence
drop the first 3 and last 3 and re-trim; else keep the trimmed text. -/
def stripFences (t : List Char) : List Char :=
  let t1 := jsTrim t
  if fenceJson.isPrefixOf t1 then
    jsTrim (jsSubstring t1 7 (t1.length - 3))
  else if fenceBare.isPrefixOf t1 then
    jsTrim (jsSubstring t1 3 (t1.length - 3))
  else
    t1

/-! ## Data model (interfaces at the top of src/index.tsx) -/

structure RankingBreakdown where
  criterion : String
  score : Int
  feedback : String
deriving DecidableEq

structure KeywordAnalysis where
  foundKeywords : List String
  missingKeywords : List String
deriving DecidableEq

structure RankingResult where
  overallScore : Int
  summary : String
  breakdown : List RankingBreakdown
  keywordAnalysis : KeywordAnalysis
deriving DecidableEq

/-- The fixed job-title list (src/index.tsx lines 30-41). -/
def jobTitles : List String :=
  ["Software Engineer", "Frontend Developer", "Backend Developer",
   "Full Stack Developer", "Data Scientist", "Product Manager",
   "UX/UI Designer", "DevOps Engineer", "Cybersecurity Analyst", "Other"]

/-- The React state of the `App` component (the eight `useState` slots,
src/index.tsx lines 44-51). -/
structure SessionState where
  selectedJob : String
  customJobTitle : String
  resumeText : String
  resumeFileName : String
  rankingResult : Option RankingResult
  isLoading : Bool
  isParsing : Bool
  error : Option String
deriving DecidableEq

/-- All eight `useState` initial values. -/
def initialState : SessionState :=
  { selectedJob := "", customJobTitle := "", resumeText := "",
    resumeFileName := "", rankingResult := none, isLoading := false,
    isParsing := false, error := none }

/-! ## User-facing message strings (verbatim from the source) -/

def unsupportedFormatMsg : String := "Please upload a PDF file."

def noReadableTextMsg : String :=
  "This appears to be an image-based PDF with no readable text. Please upload a text-based PDF."

def passwordProtectedMsg : String :=
  "This PDF is password-protected. Please upload an unprotected version."

def corruptOrUnreadableMsg : String :=
  "Could not read resume from PDF. The file might be corrupt or unreadable."

def validationMsg : String :=
  "Please select/specify a job title and upload a resume."

def parseFailureMsg : String :=
  "Failed to analyze resume. The model returned an unexpected format."

def serviceFailureMsg : String :=
  "Failed to get ranking. Please check your inputs and try again."

/-! ## File upload (handleFileChange, src/index.tsx lines 53-102) -/

/-- Outcome of handing the selected file's bytes to the PDF library:
either the per-page lists of text-item strings, or a thrown exception
classified by its `name` as in the catch block. -/
inductive PdfOutcome where
  | pages (pgs : List (List String))
  | passwordException
  | otherException
deriving DecidableEq

/-- A DOM file as `handleFileChange` sees it: `file.name`, `file.type`,
and what the PDF library will do with its bytes. -/
structure JsFile where
  name : String
  mimeType : String
  pdf : PdfOutcome
deriving DecidableEq

/-- One page's text: the item strings joined by a single space
(src/index.tsx line 78). -/
def pageText (items : List String) : String := String.intercalate " " items

/-- The concatenated text of all pages in page order, each page followed
by a newline (the loop of src/index.tsx lines 74-79). -/
def fullTextOf (pgs : List (List String)) : String :=
  pgs.foldl (fun acc pg => acc ++ pageText pg ++ "\n") ""

/-- The state entered by the PDF branch before awaiting the library
(src/index.tsx lines 64-68): parsing flag up, error and prior result
cleared, file name recorded, resume text reset. -/
def parsingState (s : SessionState) (f : JsFile) : SessionState :=
  { s with isParsing := true, error := none, rankingResult := none,
           resumeFileName := f.name, resumeText := "" }

/-- `handleFileChange`: returns the sequence of observable states of this
invocation. A synchronous return yields one state; the PDF branch yields
the state visible while awaiting the library, then the final state. -/
def handleFileChange (s : SessionState) (file : Option JsFile) :
    List SessionState :=
  match file with
  | none => [s]
  | some f =>
    if f.mimeType ≠ "application/pdf" then
      [{ s with error := some unsupportedFormatMsg,
                resumeFileName := "", resumeText := "" }]
    else
      let s1 : SessionState := parsingState s f
      match f.pdf with
      | .pages pgs =>
        let fullText := fullTextOf pgs
        if (jsTrim fullText.data).length < 50 then
          [s1, { s1 with error := some noReadableTextMsg,
                         resumeFileName := "", resumeText := "",
                         isParsing := false }]
        else
          [s1, { s1 with resumeText := fullText, isParsing := false }]
      | .passwordException =>
        [s1, { s1 with error := some passwordProtectedMsg,
                       resumeFileName := "", resumeText := "",
                       isParsing := false }]
      | .otherException =>
        [s1, { s1 with error := some corruptOrUnreadableMsg,
                       resumeFileName := "", resumeText := "",
                       isParsing := false }]

/-! ## Analysis trigger (handleRankResume, src/index.tsx lines 105-188) -/

/-- Outcome of the awaited generative-AI call: the response text, or a
rejection (transport/auth/service failure). -/
inductive ServiceOutcome where
  | ok (text : List Char)
  | fail
deriving DecidableEq

/-- What an invocation of `handleRankResume` did: `rejected` is the
synchronous validation-error return (line 108-111); `started` carries the
state observable while the service call is pending and the final state. -/
inductive RankOutcome where
  | rejected (final : SessionState)
  | started (pending final : SessionState)
deriving DecidableEq

/-- The effective job title `jobToRank` (src/index.tsx line 106). -/
def effectiveTitle (s : SessionState) : String :=
  if s.selectedJob = "Other" then s.customJobTitle else s.selectedJob

/-- The state entered before awaiting the service call
(src/index.tsx lines 113-115): loading flag up, error and prior result
cleared. -/
def pendingState (s : SessionState) : SessionState :=
  { s with isLoading := true, error := none, rankingResult := none }

/-- `handleRankResume`, parameterised by the JSON parser (`JSON.parse`
returning a structured result or failing) and the service outcome. -/
def handleRankResume (jsonParse : List Char → Option RankingResult)
    (service : ServiceOutcome) (s : SessionState) : RankOutcome :=
  let jobToRank := effectiveTitle s
  if jobToRank = "" ∨ s.resumeText = "" then
    .rejected { s with error := some validationMsg }
  else
    let s1 : SessionState := pendingState s
    match service with
    | .fail =>
      .started s1 { s1 with error := some serviceFailureMsg,
                            isLoading := false }
    | .ok text =>
      match jsonParse (stripFences text) with
      | some r =>
        .started s1 { s1 with rankingResult := some r, isLoading := false }
      | none =>
        .started s1 { s1 with error := some parseFailureMsg,
                              isLoading := false }

/-- The trigger button's `disabled` condition (src/index.tsx line 232). -/
def buttonDisabled (s : SessionState) : Bool :=
  s.isLoading || s.isParsing || s.resumeText == "" || s.selectedJob == "" ||
  (s.selectedJob == "Other" && s.customJobTitle == "")

/-- `getScoreColor` (src/index.tsx lines 190-194). -/
def getScoreColor (score : Int) : String :=
  if score ≥ 85 then "high-score"
  else if score ≥ 60 then "medium-score"
  else "low-score"

/-- The CSS class of a breakdown card's score: the item's 0-10 score is
scaled by 10 before banding (src/index.tsx line 269). -/
def breakdownScoreColor (score : Int) : String := getScoreColor (score * 10)

/-- The ResumeDocument validity predicate of the spec: the pair
(fileName, rawText) is either both non-empty or both empty. -/
def resumeDocValid (s : SessionState) : Bool :=
  (s.resumeFileName ≠ "" && s.resumeText ≠ "") ||
  (s.resumeFileName = "" && s.resumeText = "")

/-- JS `trim` lifted back to `String`. -/
def jsTrimStr (s : String) : String := String.mk (jsTrim s.data)

/-- A state ready to trigger analysis, with an analysis already in
flight (`isLoading` up). -/
def loadingState : SessionState :=
  { initialState with selectedJob := "Software Engineer",
                      resumeText := "resume body", resumeFileName := "r.pdf",
                      isLoading := true }

/-- A quiescent state ready to trigger analysis. -/
def readyState : SessionState :=
  { initialState with selectedJob := "Software Engineer",
                      resumeText := "resume body", resumeFileName := "r.pdf" }

/-- A sample stored analysis result, for frame-effect tests. -/
def sampleResult : RankingResult :=
  { overallScore := 42, summary := "ok", breakdown := [],
    keywordAnalysis := { foundKeywords := [], missingKeywords := [] } }

/-- A one-page PDF whose extracted text trims to 49 characters. -/
def pdf49 : JsFile :=
  { name := "r.pdf", mimeType := "application/pdf",
    pdf := .pages [[String.mk (List.replicate 49 'x')]] }

/-- A one-page PDF whose extracted text trims to 50 characters. -/
def pdf50 : JsFile :=
  { name := "r.pdf", mimeType := "application/pdf",
    pdf := .pages [[String.mk (List.replicate 50 'x')]] }

/-- The fenced response of claim C5, tagged variant:
"```json\n" + b + "\n```". -/
def wrapJsonFence (b : List Char) : List Char :=
  "```json\n".data ++ b ++ "\n```".data

/-- The fenced response of claim C5, untagged variant:
"```\n" + b + "\n```". -/
def wrapBareFence (b : List Char) : List Char :=
  "```\n".data ++ b ++ "\n```".data

/-! ## Lemmas on the embedded JS string operations -/

theorem trimLeft_cons_of_neg {c : Char} (h : isWsp c = false)
    (xs : List Char) : trimLeft (c :: xs) = c :: xs := by
  simp [trimLeft, List.dropWhile_cons, h]

theorem trimLeft_cons_of_pos {c : Char} (h : isWsp c = true)
    (xs : List Char) : trimLeft (c :: xs) = trimLeft xs := by
  simp [trimLeft, List.dropWhile_cons, h]

theorem trimRight_append_of_neg {d : Char} (h : isWsp d = false)
    (xs : List Char) : trimRight (xs ++ [d]) = xs ++ [d] := by
  simp [trimRight, List.reverse_append, List.dropWhile_cons, h]

theorem trimRight_append_of_pos {d : Char} (h : isWsp d = true)
    (xs : List Char) : trimRight (xs ++ [d]) = trimRight xs := by
  simp [trimRight, List.reverse_append, List.dropWhile_cons, h]

/-- A list with non-whitespace characters at both ends is fixed by
JS `trim`. -/
theorem jsTrim_sandwich {c d : Char} (hc : isWsp c = false)
    (hd : isWsp d = false) (xs : List Char) :
    jsTrim (c :: xs ++ [d]) = c :: xs ++ [d] := by
  rw [jsTrim, show c :: xs ++ [d] = (c :: xs) ++ [d] from rfl,
      trimRight_append_of_neg hd]
  exact trimLeft_cons_of_neg hc (xs ++ [d])

/-- Wrapping a list in newlines does not change its JS `trim`. -/
theorem jsTrim_newline_sandwich (b : List Char) :
    jsTrim ('\n' :: b ++ ['\n']) = jsTrim b := by
  rw [jsTrim, show '\n' :: b ++ ['\n'] = ('\n' :: b) ++ ['\n'] from rfl,
      trimRight_append_of_pos (by decide)]
  rw [trimRight, List.reverse_cons, List.dropWhile_append]
  by_cases hb : (b.reverse.dropWhile isWsp).isEmpty
  · rw [if_pos hb]
    have hb' : b.reverse.dropWhile isWsp = [] := by
      simpa using hb
    simp [jsTrim, trimRight, hb', trimLeft, List.dropWhile]
  · rw [if_neg hb, List.reverse_append]
    simp only [List.reverse_cons, List.reverse_nil, List.nil_append,
               List.singleton_append]
    rw [trimLeft_cons_of_pos (by decide)]
    rfl

theorem wrapJsonFence_shape (b : List Char) :
    wrapJsonFence b = (fenceJson ++ ('\n' :: b ++ ['\n'])) ++ fenceBare := by
  rw [wrapJsonFence,
      show "```json\n".data = fenceJson ++ ['\n'] from by decide,
      show "\n```".data = '\n' :: fenceBare from by decide]
  simp [List.append_assoc]

theorem wrapBareFence_shape (b : List Char) :
    wrapBareFence b = (fenceBare ++ ('\n' :: b ++ ['\n'])) ++ fenceBare := by
  rw [wrapBareFence,
      show "```\n".data = fenceBare ++ ['\n'] from by decide,
      show "\n```".data = '\n' :: fenceBare from by decide]
  simp [List.append_assoc]

theorem jsTrim_wrapJson (b : List Char) :
    jsTrim (wrapJsonFence b) = wrapJsonFence b := by
  rw [show wrapJsonFence b =
        '\x60' :: ("``json\n".data ++ b ++ "\n``".data) ++ ['\x60'] from by
      rw [wrapJsonFence,
          show "```json\n".data = '\x60' :: "``json\n".data from by decide,
          show "\n```".data = "\n``".data ++ ['\x60'] from by decide]
      simp [List.append_assoc]]
  exact jsTrim_sandwich (by decide) (by decide) _

theorem jsTrim_wrapBare (b : List Char) :
    jsTrim (wrapBareFence b) = wrapBareFence b := by
  rw [show wrapBareFence b =
        '\x60' :: ("``\n".data ++ b ++ "\n``".data) ++ ['\x60'] from by
      rw [wrapBareFence,
          show "```\n".data = '\x60' :: "``\n".data from by decide,
          show "\n```".data = "\n``".data ++ ['\x60'] from by decide]
      simp [List.append_assoc]]
  exact jsTrim_sandwich (by decide) (by decide) _

theorem fenceJson_isPrefixOf_wrapJson (b : List Char) :
    fenceJson.isPrefixOf (wrapJsonFence b) = true := by
  rw [wrapJsonFence_shape, List.isPrefixOf_iff_prefix, List.append_assoc]
  exact List.prefix_append _ _

theorem fenceBare_isPrefixOf_wrapBare (b : List Char) :
    fenceBare.isPrefixOf (wrapBareFence b) = true := by
  rw [wrapBareFence_shape, List.isPrefixOf_iff_prefix, List.append_assoc]
  exact List.prefix_append _ _

theorem fenceJson_not_prefixOf_wrapBare (b : List Char) :
    fenceJson.isPrefixOf (wrapBareFence b) = false := by
  rw [show wrapBareFence b =
        '\x60' :: '\x60' :: '\x60' :: '\n' :: (b ++ "\n```".data) from by
      rw [wrapBareFence,
          show "```\n".data = ['\x60', '\x60', '\x60', '\n'] from by decide]
      simp,
      show fenceJson = ['\x60', '\x60', '\x60', 'j', 's', 'o', 'n'] from by
        decide]
  simp [List.isPrefixOf]

/-- If the untagged fence marker is not a prefix, neither is the tagged
one (it extends the untagged one). -/
theorem not_fenceJson_of_not_fenceBare {t : List Char}
    (h : fenceBare.isPrefixOf t = false) :
    fenceJson.isPrefixOf t = false := by
  by_contra hc
  rw [Bool.not_eq_false, List.isPrefixOf_iff_prefix] at hc
  rw [Bool.eq_false_iff, Ne, List.isPrefixOf_iff_prefix] at h
  exact h (List.IsPrefix.trans (by decide : fenceBare <+: fenceJson) hc)

/-- A text whose trim starts with no fence marker is only trimmed by
the stripping step. -/
theorem stripFences_of_no_fence {b : List Char}
    (hb : fenceBare.isPrefixOf (jsTrim b) = false) :
    stripFences b = jsTrim b := by
  rw [stripFences]
  simp [hb, not_fenceJson_of_not_fenceBare hb]

theorem length_wrapJson (b : List Char) :
    (wrapJsonFence b).length = b.length + 12 := by
  rw [wrapJsonFence]
  simp [List.length_append,
        show ("```json\n".data).length = 8 from by decide,
        show ("\n```".data).length = 4 from by decide]

theorem length_wrapBare (b : List Char) :
    (wrapBareFence b).length = b.length + 8 := by
  rw [wrapBareFence]
  simp [List.length_append,
        show ("```\n".data).length = 4 from by decide,
        show ("\n```".data).length = 4 from by decide]

theorem jsSubstring_wrapJson (b : List Char) :
    jsSubstring (wrapJsonFence b) 7 ((wrapJsonFence b).length - 3) =
      '\n' :: b ++ ['\n'] := by
  rw [jsSubstring, length_wrapJson,
      show max 7 (b.length + 12 - 3) = b.length + 9 from by omega,
      show min 7 (b.length + 12 - 3) = 7 from by omega,
      wrapJsonFence_shape,
      List.take_left' (by
        simp only [List.length_append, List.length_cons, List.length_nil,
                   List.length_singleton,
                   show fenceJson.length = 7 from by decide]
        omega),
      List.drop_left' (by decide : fenceJson.length = 7)]

theorem jsSubstring_wrapBare (b : List Char) :
    jsSubstring (wrapBareFence b) 3 ((wrapBareFence b).length - 3) =
      '\n' :: b ++ ['\n'] := by
  rw [jsSubstring, length_wrapBare,
      show max 3 (b.length + 8 - 3) = b.length + 5 from by omega,
      show min 3 (b.length + 8 - 3) = 3 from by omega,
      wrapBareFence_shape,
      List.take_left' (by
        simp only [List.length_append, List.length_cons, List.length_nil,
                   List.length_singleton,
                   show fenceBare.length = 3 from by decide]
        omega),
      List.drop_left' (by decide : fenceBare.length = 3)]

/-- Stripping the tagged-fence wrapping recovers the trimmed body. -/
theorem stripFences_wrapJson (b : List Char)
    (hb : fenceBare.isPrefixOf (jsTrim b) = false) :
    stripFences (wrapJsonFence b) = stripFences b := by
  rw [stripFences, stripFences_of_no_fence hb]
  simp only [jsTrim_wrapJson, fenceJson_isPrefixOf_wrapJson, if_true]
  rw [jsSubstring_wrapJson, jsTrim_newline_sandwich]

/-- Stripping the untagged-fence wrapping recovers the trimmed body. -/
theorem stripFences_wrapBare (b : List Char)
    (hb : fenceBare.isPrefixOf (jsTrim b) = false) :
    stripFences (wrapBareFence b) = stripFences b := by
  rw [stripFences, stripFences_of_no_fence hb]
  simp only [jsTrim_wrapBare, fenceJson_not_prefixOf_wrapBare,
             fenceBare_isPrefixOf_wrapBare, if_true, Bool.false_eq_true,
             if_false]
  rw [jsSubstring_wrapBare, jsTrim_newline_sandwich]

/-! ## Claim theorems -/

/-- C2 (counterexample): with "Other" selected and custom text " x ",
the effective job title used by `handleRankResume` is the raw custom
text " x ", not its whitespace-trimmed form "x" — the code never trims
`customJobTitle`. -/
theorem effective_title_not_trimmed :
    effectiveTitle { initialState with selectedJob := "Other",
                                       customJobTitle := " x " } ≠
      jsTrimStr " x " := by decide

/-- C2 (amended): for every predefined title other than "Other" the
effective title equals the selected title; for "Other" it equals the
custom text exactly as typed (no trimming); and an empty custom text
with "Other" selected disables the trigger button. -/
theorem effective_title_spec :
    (∀ s : SessionState, s.selectedJob ∈ jobTitles → s.selectedJob ≠ "Other" →
        effectiveTitle s = s.selectedJob) ∧
    (∀ s : SessionState, s.selectedJob = "Other" →
        effectiveTitle s = s.customJobTitle) ∧
    (∀ s : SessionState, s.selectedJob = "Other" → s.customJobTitle = "" →
        buttonDisabled s = true) := by
  refine ⟨fun s _ hne => ?_, fun s h => ?_, fun s h hc => ?_⟩
  · simp [effectiveTitle, hne]
  · simp [effectiveTitle, h]
  · simp [buttonDisabled, h, hc]

/-- C2 (witness): the amended statement at concrete states. -/
theorem effective_title_spec_witness :
    effectiveTitle { initialState with selectedJob := "Data Scientist" } =
        "Data Scientist" ∧
    effectiveTitle { initialState with selectedJob := "Other",
                                       customJobTitle := "ML Engineer" } =
        "ML Engineer" ∧
    buttonDisabled { initialState with selectedJob := "Other",
                                       resumeText := "body" } = true :=
  ⟨effective_title_spec.1 _ (by decide) (by decide),
   effective_title_spec.2.1 _ (by decide),
   effective_title_spec.2.2 _ (by decide) (by decide)⟩

/-- C3 (counterexample): invoked in a state with an analysis already in
flight (`isLoading = true`) but a non-empty effective title and resume,
`handleRankResume` still starts the asynchronous flow instead of
returning a synchronous validation error — the operation itself never
checks the in-flight flags. -/
theorem trigger_starts_while_loading :
    loadingState.isLoading = true ∧
    handleRankResume (fun _ => none) .fail loadingState =
      .started (pendingState loadingState)
        { pendingState loadingState with error := some serviceFailureMsg,
                                         isLoading := false } := by
  constructor
  · rfl
  · rfl

/-- C3 (amended): `handleRankResume` starts the asynchronous flow iff
the effective job title and the resume text are both non-empty; when
either is empty it returns synchronously with the validation message
stored and does not start the flow. The in-flight admission control
(`isLoading`/`isParsing`) lives only in the View's disabled-button
condition, not in the operation. -/
theorem trigger_guard_spec (p : List Char → Option RankingResult)
    (svc : ServiceOutcome) (s : SessionState) :
    (effectiveTitle s = "" ∨ s.resumeText = "" →
        handleRankResume p svc s =
          .rejected { s with error := some validationMsg }) ∧
    (effectiveTitle s ≠ "" → s.resumeText ≠ "" →
        ∃ fin, handleRankResume p svc s = .started (pendingState s) fin) ∧
    (buttonDisabled s = false → s.isLoading = false ∧ s.isParsing = false) := by
  refine ⟨fun h => ?_, fun h1 h2 => ?_, fun h => ?_⟩
  · simp only [handleRankResume, if_pos h]
  · simp only [handleRankResume, if_neg (not_or.mpr ⟨h1, h2⟩)]
    cases svc with
    | fail => exact ⟨_, rfl⟩
    | ok text => rcases hp : p (stripFences text) with _ | r <;> simp [hp]
  · simp only [buttonDisabled, Bool.or_eq_false_iff] at h
    exact ⟨h.1.1.1.1, h.1.1.1.2⟩

/-- C3 (witness): the amended statement at concrete states. -/
theorem trigger_guard_spec_witness :
    handleRankResume (fun _ => none) .fail initialState =
      .rejected { initialState with error := some validationMsg } ∧
    (∃ fin, handleRankResume (fun _ => none) .fail readyState =
      .started (pendingState readyState) fin) ∧
    (readyState.isLoading = false ∧ readyState.isParsing = false) :=
  ⟨(trigger_guard_spec _ _ _).1 (by decide),
   (trigger_guard_spec _ _ _).2.1 (by decide) (by decide),
   (trigger_guard_spec (fun _ => none) .fail readyState).2.2 (by decide)⟩

/-- C1 (counterexample): the ResumeDocument pair is partially valid at
an observable point: while a PDF is being parsed the state holds the
file's name alongside a still-empty resume text. -/
theorem resume_pair_partially_valid_while_parsing :
    ¬ ∀ st ∈ handleFileChange initialState
        (some { name := "resume.pdf", mimeType := "application/pdf",
                pdf := .passwordException }),
        resumeDocValid st = true := by decide

/-- C1 (amended): outside the parsing phase the pair is never partially
valid: if the invariant held before the invocation and the selected
file carries a non-empty name, then every observable state of
`handleFileChange` with `isParsing = false` satisfies it. (While
parsing, the code deliberately holds the file name with an empty
text.) -/
theorem resume_pair_valid_when_not_parsing (s : SessionState)
    (file : Option JsFile) (hs : resumeDocValid s = true)
    (hname : ∀ f ∈ file, f.name ≠ "") :
    ∀ st ∈ handleFileChange s file, st.isParsing = false →
      resumeDocValid st = true := by
  intro st hst hpar
  cases file with
  | none =>
    simp [handleFileChange] at hst
    subst hst
    exact hs
  | some f =>
    have hn : f.name ≠ "" := hname f (by simp)
    by_cases hm : f.mimeType = "application/pdf"
    case neg =>
      simp [handleFileChange, hm] at hst
      subst hst
      simp [resumeDocValid]
    case pos =>
      cases hpdf : f.pdf with
      | pages pgs =>
        by_cases hlen : (jsTrim (fullTextOf pgs).data).length < 50
        · simp [handleFileChange, hm, hpdf, hlen] at hst
          rcases hst with h | h <;> subst h
          · exact absurd hpar (by simp [parsingState])
          · simp [resumeDocValid]
        · have hne : fullTextOf pgs ≠ "" := by
            intro he
            rw [he] at hlen
            exact hlen (by decide)
          simp [handleFileChange, hm, hpdf, hlen] at hst
          rcases hst with h | h <;> subst h
          · exact absurd hpar (by simp [parsingState])
          · simp [resumeDocValid, parsingState, hn, hne]
      | passwordException =>
        simp [handleFileChange, hm, hpdf] at hst
        rcases hst with h | h <;> subst h
        · exact absurd hpar (by simp [parsingState])
        · simp [resumeDocValid]
      | otherException =>
        simp [handleFileChange, hm, hpdf] at hst
        rcases hst with h | h <;> subst h
        · exact absurd hpar (by simp [parsingState])
        · simp [resumeDocValid]

/-- C1 (witness): the amended statement at the concrete final state of
a password-protected upload. -/
theorem resume_pair_valid_when_not_parsing_witness :
    resumeDocValid
      { parsingState initialState
          { name := "r.pdf", mimeType := "application/pdf",
            pdf := .passwordException } with
          error := some passwordProtectedMsg, resumeFileName := "",
          resumeText := "", isParsing := false } = true :=
  resume_pair_valid_when_not_parsing initialState
    (some { name := "r.pdf", mimeType := "application/pdf",
            pdf := .passwordException })
    (by decide) (by decide) _ (by decide) (by decide)

/-- C4: for a successfully opened PDF, a trimmed concatenated text
shorter than 50 characters fails with the NoReadableText message and
clears the resume fields; a trimmed length of 50 or more stores the
(untrimmed) concatenated text with no error. -/
theorem min_length_threshold_spec (s : SessionState) (f : JsFile)
    (pgs : List (List String))
    (hm : f.mimeType = "application/pdf") (hp : f.pdf = .pages pgs) :
    ((jsTrim (fullTextOf pgs).data).length < 50 →
        handleFileChange s (some f) =
          [parsingState s f,
           { parsingState s f with error := some noReadableTextMsg,
                                   resumeFileName := "", resumeText := "",
                                   isParsing := false }]) ∧
    (50 ≤ (jsTrim (fullTextOf pgs).data).length →
        handleFileChange s (some f) =
          [parsingState s f,
           { parsingState s f with resumeText := fullTextOf pgs,
                                   isParsing := false }]) := by
  constructor
  · intro h
    simp [handleFileChange, hm, hp, h]
  · intro h
    simp [handleFileChange, hm, hp, Nat.not_lt.mpr h]

/-- C4 (witness): the boundary at 49 and 50 characters. -/
theorem min_length_threshold_spec_witness :
    ((jsTrim (fullTextOf [[String.mk (List.replicate 49 'x')]]).data).length
        < 50 ∧
      handleFileChange initialState (some pdf49) =
        [parsingState initialState pdf49,
         { parsingState initialState pdf49 with
             error := some noReadableTextMsg, resumeFileName := "",
             resumeText := "", isParsing := false }]) ∧
    (50 ≤ (jsTrim (fullTextOf [[String.mk (List.replicate 50 'x')]]).data).length ∧
      handleFileChange initialState (some pdf50) =
        [parsingState initialState pdf50,
         { parsingState initialState pdf50 with
             resumeText := fullTextOf [[String.mk (List.replicate 50 'x')]],
             isParsing := false }]) :=
  ⟨⟨by decide,
    (min_length_threshold_spec initialState pdf49 _ rfl rfl).1 (by decide)⟩,
   ⟨by decide,
    (min_length_threshold_spec initialState pdf50 _ rfl rfl).2 (by decide)⟩⟩

/-- C6: whenever the (fence-stripped) response text is not valid JSON,
the analysis flow ends with the ParseFailure message stored and no
result set; the embedding is a total function, so the JSON failure is
always caught rather than propagated. -/
theorem parse_failure_spec (p : List Char → Option RankingResult)
    (raw : List Char) (s : SessionState)
    (h1 : effectiveTitle s ≠ "") (h2 : s.resumeText ≠ "")
    (hp : p (stripFences raw) = none) :
    handleRankResume p (.ok raw) s =
      .started (pendingState s)
        { pendingState s with error := some parseFailureMsg,
                              isLoading := false } := by
  simp only [handleRankResume, if_neg (not_or.mpr ⟨h1, h2⟩), hp]

/-- C6 (witness): a concrete non-JSON response yields the ParseFailure
message and leaves the result unset. -/
theorem parse_failure_spec_witness :
    handleRankResume (fun _ => none) (.ok "The resume is great!".data)
        readyState =
      .started (pendingState readyState)
        { pendingState readyState with error := some parseFailureMsg,
                                       isLoading := false } :=
  parse_failure_spec _ _ _ (by decide) (by decide) rfl

/-- C7: for a selected file whose declared mime type is not
"application/pdf", `handleFileChange` returns synchronously with the
UnsupportedFormat message stored and both resume fields cleared; the
trace never depends on what the PDF library would have produced (the
extractor is never invoked) and never enters the parsing state. -/
theorem non_pdf_rejected_spec (s : SessionState) (f : JsFile)
    (hm : f.mimeType ≠ "application/pdf") :
    handleFileChange s (some f) =
      [{ s with error := some unsupportedFormatMsg,
                resumeFileName := "", resumeText := "" }] ∧
    (∀ o : PdfOutcome,
        handleFileChange s (some { f with pdf := o }) =
          handleFileChange s (some f)) := by
  refine ⟨?_, fun o => ?_⟩ <;> simp [handleFileChange, hm]

/-- C7 (witness): a concrete plain-text file is rejected identically
whatever its bytes would parse to. -/
theorem non_pdf_rejected_spec_witness :
    handleFileChange readyState
        (some { name := "r.txt", mimeType := "text/plain",
                pdf := .pages [["hello"]] }) =
      [{ readyState with error := some unsupportedFormatMsg,
                         resumeFileName := "", resumeText := "" }] ∧
    (∀ o : PdfOutcome,
        handleFileChange readyState
            (some { name := "r.txt", mimeType := "text/plain", pdf := o }) =
          handleFileChange readyState
            (some { name := "r.txt", mimeType := "text/plain",
                    pdf := .pages [["hello"]] })) :=
  non_pdf_rejected_spec readyState _ (by decide)

/-- C8: `getScoreColor` bands a score as high when it is at least 85,
medium when it is at least 60 and below 85, and low below 60; a
breakdown card's 0-10 score is scaled by 10 before the same banding, so
a breakdown score of 9 and an overall score of 90 share a band. -/
theorem score_banding_spec :
    (∀ sc : Int, 85 ≤ sc → getScoreColor sc = "high-score") ∧
    (∀ sc : Int, 60 ≤ sc → sc < 85 → getScoreColor sc = "medium-score") ∧
    (∀ sc : Int, sc < 60 → getScoreColor sc = "low-score") ∧
    (∀ sc : Int, breakdownScoreColor sc = getScoreColor (sc * 10)) ∧
    breakdownScoreColor 9 = getScoreColor 90 := by
  refine ⟨fun sc h => ?_, fun sc h1 h2 => ?_, fun sc h => ?_,
          fun sc => rfl, rfl⟩
  · rw [getScoreColor, if_pos (by omega)]
  · rw [getScoreColor, if_neg (by omega), if_pos (by omega)]
  · rw [getScoreColor, if_neg (by omega), if_neg (by omega)]

/-- C8 (witness): the banding at concrete scores 90, 70 and 30. -/
theorem score_banding_spec_witness :
    getScoreColor 90 = "high-score" ∧
    getScoreColor 70 = "medium-score" ∧
    getScoreColor 30 = "low-score" :=
  ⟨score_banding_spec.1 90 (by decide),
   score_banding_spec.2.1 70 (by decide) (by decide),
   score_banding_spec.2.2.1 30 (by decide)⟩

/-- C9: selecting a non-PDF file leaves a previously stored
AnalysisResult untouched in every observable state while storing the
UnsupportedFormat message, and the clearing of result and error is done
(only) by the state entered on the branch that starts parsing. -/
theorem non_pdf_preserves_result (s : SessionState) (f : JsFile)
    (hm : f.mimeType ≠ "application/pdf") :
    (∀ st ∈ handleFileChange s (some f),
        st.rankingResult = s.rankingResult ∧
        st.error = some unsupportedFormatMsg) ∧
    (parsingState s f).rankingResult = none ∧
    (parsingState s f).error = none := by
  refine ⟨fun st hst => ?_, rfl, rfl⟩
  simp [handleFileChange, hm] at hst
  subst hst
  exact ⟨rfl, rfl⟩

/-- C9 (witness): a stale stored result survives a non-PDF selection
and sits alongside the UnsupportedFormat error, at the concrete state a
non-PDF selection produces. -/
theorem non_pdf_preserves_result_witness :
    ({ readyState with rankingResult := some sampleResult,
                       error := some unsupportedFormatMsg,
                       resumeFileName := "", resumeText := "" } :
        SessionState).rankingResult = some sampleResult ∧
    ({ readyState with rankingResult := some sampleResult,
                       error := some unsupportedFormatMsg,
                       resumeFileName := "", resumeText := "" } :
        SessionState).error = some unsupportedFormatMsg :=
  (non_pdf_preserves_result
      { readyState with rankingResult := some sampleResult }
      { name := "r.txt", mimeType := "text/plain",
        pdf := .otherException }
      (by decide)).1 _ (by decide)

/-- C5: for every JSON body b (any text whose trimmed form does not
itself open a fence), the analysis flow on the fenced response
"```json\n" + b + "\n```" produces exactly the same outcome — same
structured result, same state — as on the bare body b, whatever the
JSON parser yields; likewise for the untagged "```" fence. -/
theorem fence_stripping_content_neutral
    (p : List Char → Option RankingResult) (b : List Char)
    (s : SessionState)
    (hb : fenceBare.isPrefixOf (jsTrim b) = false) :
    handleRankResume p (.ok (wrapJsonFence b)) s =
      handleRankResume p (.ok b) s ∧
    handleRankResume p (.ok (wrapBareFence b)) s =
      handleRankResume p (.ok b) s := by
  refine ⟨?_, ?_⟩ <;> simp only [handleRankResume]
  · rw [stripFences_wrapJson b hb]
  · rw [stripFences_wrapBare b hb]

/-- C5 (witness): the neutrality at the concrete body "\x7b\x7d". -/
theorem fence_stripping_content_neutral_witness :
    handleRankResume (fun _ => none) (.ok (wrapJsonFence "\x7b\x7d".data))
        readyState =
      handleRankResume (fun _ => none) (.ok "\x7b\x7d".data) readyState ∧
    handleRankResume (fun _ => none) (.ok (wrapBareFence "\x7b\x7d".data))
        readyState =
      handleRankResume (fun _ => none) (.ok "\x7b\x7d".data) readyState :=
  fence_stripping_content_neutral _ _ _ (by decide)

/-- C10 (counterexample): at the trimmed input "```json", which starts
with the tagged fence, the stripping step does not remove the final
three characters: because 7 exceeds length - 3 = 4, JS substring swaps
its arguments and returns "son" — exactly the final three characters —
instead of the empty remainder that removing the 7-character marker and
the last three characters would leave. -/
theorem fence_strip_short_input_cex :
    jsTrim "```json".data = "```json".data ∧
    fenceJson.isPrefixOf "```json".data = true ∧
    stripFences "```json".data = "son".data ∧
    stripFences "```json".data ≠
      jsTrim (("```json".data.take ("```json".data.length - 3)).drop 7) := by
  refine ⟨by decide, by decide, by decide, by decide⟩

/-- C10 (amended): for a trimmed text of length at least 10 starting
with "```json" (respectively length at least 6 starting with "```"),
the stripping step removes the first 7 (respectively 3) characters and
the final three characters unconditionally, never checking that the
text ends with a closing fence; on shorter fence-opening texts the JS
substring argument swap returns other fragments instead. In particular
the input "```json\n\x7b"a":1\x7d", which opens a fence without
closing it, loses the final three characters ":1\x7d" of its JSON
body. -/
theorem fence_strip_truncation_spec (t : List Char) (ht : jsTrim t = t) :
    (fenceJson.isPrefixOf t = true → 10 ≤ t.length →
        stripFences t = jsTrim ((t.take (t.length - 3)).drop 7)) ∧
    (fenceJson.isPrefixOf t = false → fenceBare.isPrefixOf t = true →
        6 ≤ t.length →
        stripFences t = jsTrim ((t.take (t.length - 3)).drop 3)) ∧
    stripFences "```json\n\x7b\"a\":1\x7d".data = "\x7b\"a\"".data := by
  refine ⟨fun hpre hlen => ?_, fun hnpre hpre hlen => ?_, by decide⟩
  · rw [stripFences]
    simp only [ht, hpre, if_true]
    rw [jsSubstring, show max 7 (t.length - 3) = t.length - 3 from by omega,
        show min 7 (t.length - 3) = 7 from by omega]
  · rw [stripFences]
    simp only [ht, hnpre, hpre, if_true, Bool.false_eq_true, if_false]
    rw [jsSubstring, show max 3 (t.length - 3) = t.length - 3 from by omega,
        show min 3 (t.length - 3) = 3 from by omega]

/-- C10 (witness): the amended statement at the unclosed-fence input. -/
theorem fence_strip_truncation_spec_witness :
    stripFences "```json\n\x7b\"a\":1\x7d".data =
      jsTrim (("```json\n\x7b\"a\":1\x7d".data.take
          ("```json\n\x7b\"a\":1\x7d".data.length - 3)).drop 7) :=
  (fence_strip_truncation_spec "```json\n\x7b\"a\":1\x7d".data
      (by decide)).1 (by decide) (by decide)

end ResumeRanker
